import Mathlib

/-!
Shallow embedding of `src/src/ipaddress_tools/tools.py` (sebastianw/ipaddress-tools).

The Python module tracks allocation state inside one IP supernet.  Addresses are
unsigned integers (32 bits for IPv4, 128 bits for IPv6); a network is a base
address plus a prefix length.  The embedding below follows the source line by
line: `overlap`, `net_size_iterator`, `_BaseIPSet.__init__`, the
`used_networks` property and setter, `add_used_networks`, `_update_networks`
and `get_free_networks`.  Python exceptions are modelled by `PyError`; the
generator semantics of `get_free_networks` (a prefix of yields followed by an
optional exception) is modelled by a `List Network × Option PyError` pair.
-/

set_option autoImplicit false

/-- Python exceptions that the modelled code can raise.  `valueError` covers
the `ValueError`s raised by `ipaddress` parsing/validation and by
`_normalize_network`; `typeError` is what `range` raises on a float step;
`attributeError` is a missing-attribute failure. -/
inductive PyError where
  | valueError
  | typeError
  | attributeError
deriving DecidableEq, Repr

/-- A CIDR network: address family (4 or 6), integer base address, prefix
length.  Equality is by (version, base, prefix length), matching
`ipaddress`'s network equality. -/
structure Network where
  version : Nat
  addr : Nat
  prefixlen : Nat
deriving DecidableEq, Repr

/-- `max_prefixlen` attribute of an `ipaddress` network object: 32 for IPv4,
128 for IPv6. -/
def Network.max_prefixlen (n : Network) : Nat :=
  if n.version = 4 then 32 else 128

/-- `int(network[0])`: the first (base) address of the network. -/
def Network.first (n : Network) : Nat := n.addr

/-- `int(network[-1])`: the last (broadcast) address of the network. -/
def Network.last (n : Network) : Nat :=
  n.addr + 2 ^ (n.max_prefixlen - n.prefixlen) - 1

/-- Well-formedness guaranteed by `ipaddress` for any constructed network:
a known family, prefix length within the family maximum, address within the
family width, and no host bits set below the prefix. -/
def Network.Valid (n : Network) : Prop :=
  (n.version = 4 ∨ n.version = 6) ∧
    n.prefixlen ≤ n.max_prefixlen ∧
    n.addr < 2 ^ n.max_prefixlen ∧
    n.addr % 2 ^ (n.max_prefixlen - n.prefixlen) = 0

instance (n : Network) : Decidable n.Valid := by
  unfold Network.Valid; infer_instance

/-- The four-disjunct interval test from `overlap`:
`x[0] <= a[0] <= x[1] or x[0] <= a[1] <= x[1] or a[0] <= x[0] <= a[1] or
a[0] <= x[1] <= a[1]`. -/
def overlapTest (a x : Nat × Nat) : Bool :=
  (x.1 ≤ a.1 && a.1 ≤ x.2) || (x.1 ≤ a.2 && a.2 ≤ x.2) ||
    (a.1 ≤ x.1 && x.1 ≤ a.2) || (a.1 ≤ x.2 && x.2 ≤ a.2)

/-- `overlap(a, b)`: walk `b` and return the first interval passing the
four-disjunct test, else the falsy `False` (modelled as `none`). -/
def overlap (a : Nat × Nat) (b : List (Nat × Nat)) : Option (Nat × Nat) :=
  b.find? (fun x => overlapTest a x)

/-- Python `range(a, b, step)` for a positive integer `step`: the stop `b` is
exclusive. -/
def pyRange (a b step : Nat) : List Nat :=
  (List.range ((b - a + step - 1) / step)).map (fun k => a + k * step)

/-- `net_size_iterator(start, cidr)`: candidate `(first, last)` interval pairs
of size `2 ** (start.max_prefixlen - cidr)` walking `range(int(start[0]),
int(start[-1]), cidr_size)`.  When `cidr > start.max_prefixlen` the Python
expression `2 ** (negative)` is a float and `range` raises `TypeError` as soon
as the generator is first advanced, before any yield: modelled as `none`. -/
def net_size_iterator (start : Network) (cidr : Nat) : Option (List (Nat × Nat)) :=
  if cidr ≤ start.max_prefixlen then
    let cidr_size := 2 ^ (start.max_prefixlen - cidr)
    some ((pyRange start.first start.last cidr_size).map (fun s => (s, s + cidr_size - 1)))
  else
    none

/-- `ipaddress.ip_network((addr, prefixlen))` on an integer address:
`IPv4Network` is tried first (raising `ValueError` unless the address fits in
32 bits, the prefix is at most 32 and no host bits are set), then
`IPv6Network`; if both fail the call raises `ValueError` (modelled `none`). -/
def ip_network_from_int (addr prefixlen : Nat) : Option Network :=
  if addr < 2 ^ 32 ∧ prefixlen ≤ 32 ∧ addr % 2 ^ (32 - prefixlen) = 0 then
    some ⟨4, addr, prefixlen⟩
  else if addr < 2 ^ 128 ∧ prefixlen ≤ 128 ∧ addr % 2 ^ (128 - prefixlen) = 0 then
    some ⟨6, addr, prefixlen⟩
  else
    none

/-- The `_used_networks` attribute of `_BaseIPSet`.  `__init__` assigns a
Python *list* (a list comprehension); the `used_networks` setter assigns a
*set* (a set comprehension).  The distinction is behaviourally relevant:
lists have no `update` method.  A Python set is modelled as a list without
duplicates; since CPython sets do not guarantee iteration order, the model
fixes insertion order as a deterministic representative and no theorem below
relies on the iteration order of a set-backed state. -/
inductive UsedStore where
  | pylist : List Network → UsedStore
  | pyset : List Network → UsedStore
deriving DecidableEq, Repr

/-- The elements currently stored, in the model's iteration order. -/
def UsedStore.elems : UsedStore → List Network
  | .pylist l => l
  | .pyset l => l

/-- Build a Python set from iterating a list: keep the first occurrence of
each element. -/
def pysetOfList (l : List Network) : List Network :=
  l.foldl (fun acc n => if n ∈ acc then acc else acc ++ [n]) []

/-- Python `old.update(new)` on sets: insert each new element not present. -/
def pysetUnion (old new : List Network) : List Network :=
  new.foldl (fun acc n => if n ∈ acc then acc else acc ++ [n]) old

/-- One insertion into a Python dict modelled as an association list: an
existing key keeps its position and gets the new value, a fresh key is
appended. -/
def dictInsert (m : List ((Nat × Nat) × Network)) (k : Nat × Nat) (v : Network) :
    List ((Nat × Nat) × Network) :=
  if m.any (fun p => p.1 = k) then
    m.map (fun p => if p.1 = k then (k, v) else p)
  else
    m ++ [(k, v)]

/-- The dict comprehension `{(int(n[0]), int(n[-1])): n for n in nets}`. -/
def buildMap (nets : List Network) : List ((Nat × Nat) × Network) :=
  nets.foldl (fun m n => dictInsert m (n.first, n.last) n) []

/-- State of a `_BaseIPSet` (`IPv4Set` / `IPv6Set`) instance: the class
attributes `version` and `max_prefixlen`, the `supernet`, the
`_used_networks` store and the `_used_network_map` dict. -/
structure IPSet where
  version : Nat
  max_prefixlen : Nat
  supernet : Network
  used_networks_store : UsedStore
  used_network_map : List ((Nat × Nat) × Network)
deriving DecidableEq, Repr

/-- `_BaseIPSet._normalize_network`: reject a network whose family differs
from the instance's `version` with `ValueError`.  (Text parsing is the
excluded external collaborator; inputs are typed networks.) -/
def _normalize_network (version : Nat) (nw : Network) : Except PyError Network :=
  if nw.version = version then .ok nw else .error .valueError

/-- `_BaseIPSet._init_used_networks`: normalize every input network into a
Python set (first error propagates, duplicates collapse). -/
def _init_used_networks (version : Nat) (input_networks : List Network) :
    Except PyError (List Network) :=
  match input_networks.mapM (_normalize_network version) with
  | .error e => .error e
  | .ok l => .ok (pysetOfList l)

/-- `_BaseIPSet._update_networks`: rebuild `_used_network_map` from the
current `_used_networks`. -/
def _update_networks (st : IPSet) : IPSet :=
  { st with used_network_map := buildMap st.used_networks_store.elems }

/-- `_BaseIPSet.__init__`: normalize the supernet, normalize each used
network into a *list* (a list comprehension — no deduplication), then build
the map via `_update_networks`. -/
def IPSet.init (version max_prefixlen : Nat) (supernet : Network)
    (used_networks : List Network) : Except PyError IPSet := do
  let sn ← _normalize_network version supernet
  let used ← used_networks.mapM (_normalize_network version)
  let st : IPSet :=
    { version := version, max_prefixlen := max_prefixlen, supernet := sn,
      used_networks_store := UsedStore.pylist used, used_network_map := [] }
  return _update_networks st

/-- `IPv4Set(supernet, used)`: class attributes `version = 4`,
`max_prefixlen = 32`. -/
def IPv4Set_init (supernet : Network) (used_networks : List Network) :
    Except PyError IPSet :=
  IPSet.init 4 32 supernet used_networks

/-- `IPv6Set(supernet, used)`: class attributes `version = 6`,
`max_prefixlen = 128`. -/
def IPv6Set_init (supernet : Network) (used_networks : List Network) :
    Except PyError IPSet :=
  IPSet.init 6 128 supernet used_networks

/-- Module-level `ip_set` dispatcher: version 4 and 6 go to the matching
class, anything else raises `ValueError`. -/
def ip_set (address : Network) (used_networks : List Network) :
    Except PyError IPSet :=
  if address.version = 4 then IPv4Set_init address used_networks
  else if address.version = 6 then IPv6Set_init address used_networks
  else .error .valueError

/-- The `used_networks` property: `yield from self._used_networks`. -/
def IPSet.used_networks (st : IPSet) : List Network :=
  st.used_networks_store.elems

/-- The `used_networks` setter: `self._used_networks =
self._init_used_networks(new_networks)`.  Note that the stored value becomes
a set and that `_used_network_map` is *not* rebuilt. -/
def set_used_networks (st : IPSet) (new_networks : List Network) :
    Except PyError IPSet :=
  match _init_used_networks st.version new_networks with
  | .error e => .error e
  | .ok s => .ok { st with used_networks_store := UsedStore.pyset s }

/-- `add_used_networks`: Python resolves `self._used_networks.update` before
evaluating the argument, so on a list-backed store an `AttributeError` is
raised with nothing evaluated; on a set-backed store the argument is
normalized (`ValueError` leaves state unchanged), `update` mutates the set in
place, and then `self._update_free_networks()` — a method that does not exist
anywhere in the class — raises `AttributeError` *after* the mutation.  The
result pairs the (possibly mutated) state with the raised exception. -/
def add_used_networks (st : IPSet) (input_networks : List Network) :
    IPSet × Option PyError :=
  match st.used_networks_store with
  | .pylist _ => (st, some .attributeError)
  | .pyset old =>
    match _init_used_networks st.version input_networks with
    | .error e => (st, some e)
    | .ok newSet =>
      ({ st with used_networks_store := UsedStore.pyset (pysetUnion old newSet) },
        some .attributeError)

/-- Yield phase of `get_free_networks`: for each surviving candidate start,
construct `ipaddress.ip_network((n[0], prefixlen))`; a construction failure
raises `ValueError`, ending the generator after the yields already produced. -/
def yieldNetworks (prefixlen : Nat) : List (Nat × Nat) → List Network × Option PyError
  | [] => ([], none)
  | c :: rest =>
    match ip_network_from_int c.1 prefixlen with
    | none => ([], some .valueError)
    | some nw =>
      let r := yieldNetworks prefixlen rest
      (nw :: r.1, r.2)

/-- `get_free_networks(prefixlen)`: walk `net_size_iterator(self.supernet,
prefixlen)`, skip every candidate for which `overlap` against
`self._used_network_map.keys()` is truthy, and yield
`ipaddress.ip_network((n[0], prefixlen))` for the rest.  The result is the
list of yields plus the exception, if any, that ends the generator. -/
def get_free_networks (st : IPSet) (prefixlen : Nat) :
    List Network × Option PyError :=
  match net_size_iterator st.supernet prefixlen with
  | none => ([], some .typeError)
  | some cands =>
    let free := cands.filter (fun n => (overlap n (st.used_network_map.map Prod.fst)).isNone)
    yieldNetworks prefixlen free

/-- Modelled from the spec: "two intervals overlap iff
`not (c1 < u0 or c0 > u1)`".  Used to compare the source's four-disjunct
test against the spec's formula (claim C9). -/
def spec_interval_overlap (a x : Nat × Nat) : Prop :=
  ¬ (a.2 < x.1 ∨ a.1 > x.2)

instance (a x : Nat × Nat) : Decidable (spec_interval_overlap a x) := by
  unfold spec_interval_overlap; infer_instance

/-! ### Concrete networks used in the scenarios (10.0.0.0 = 167772160,
2001:db8:: = 536939960 · 2^96) -/

def sn4_24 : Network := ⟨4, 167772160, 24⟩

def sn4_31 : Network := ⟨4, 167772160, 31⟩

def sn4_32 : Network := ⟨4, 167772160, 32⟩

def n16 : Network := ⟨4, 167772160, 16⟩

def n25a : Network := ⟨4, 167772160, 25⟩

def n25b : Network := ⟨4, 167772288, 25⟩

def n26a : Network := ⟨4, 167772160, 26⟩

def n26_64 : Network := ⟨4, 167772224, 26⟩

def n26_128 : Network := ⟨4, 167772288, 26⟩

def n26_192 : Network := ⟨4, 167772352, 26⟩

def n32_0 : Network := ⟨4, 167772160, 32⟩

def n32_1 : Network := ⟨4, 167772161, 32⟩

def addr6_db8 : Nat := 536939960 * 2 ^ 96

def sn6_48 : Network := ⟨6, addr6_db8, 48⟩

def u6_64 : Network := ⟨6, addr6_db8, 64⟩

def y6_64 : Network := ⟨6, addr6_db8 + 2 ^ 64, 64⟩

/-! ### Concrete states reached in the scenarios -/

/-- `IPv4Set(10.0.0.0/24, [])`. -/
def stE : IPSet := ⟨4, 32, sn4_24, UsedStore.pylist [], []⟩

/-- `stE` after `used_networks = [10.0.0.0/25]` (map not rebuilt). -/
def stA : IPSet := ⟨4, 32, sn4_24, UsedStore.pyset [n25a], []⟩

/-- `stA` after the mutating half of `add_used_networks([10.0.0.64/26])`. -/
def stB : IPSet := ⟨4, 32, sn4_24, UsedStore.pyset [n25a, n26_64], []⟩

/-- `IPv4Set(10.0.0.0/24, [10.0.0.0/25])`. -/
def stU : IPSet := ⟨4, 32, sn4_24, UsedStore.pylist [n25a], [((167772160, 167772287), n25a)]⟩

/-- `stU` after `used_networks = []` (stale map survives). -/
def stU0 : IPSet := ⟨4, 32, sn4_24, UsedStore.pyset [], [((167772160, 167772287), n25a)]⟩

/-- `IPv4Set(10.0.0.0/24, [10.0.0.0/26])`. -/
def stV4 : IPSet := ⟨4, 32, sn4_24, UsedStore.pylist [n26a], [((167772160, 167772223), n26a)]⟩

/-- `IPv4Set(10.0.0.0/31, [])`. -/
def st31 : IPSet := ⟨4, 32, sn4_31, UsedStore.pylist [], []⟩

/-- `IPv4Set(10.0.0.0/32, [])`. -/
def st32 : IPSet := ⟨4, 32, sn4_32, UsedStore.pylist [], []⟩

/-- `IPv4Set(10.0.0.0/24, [10.0.0.0/25, 10.0.0.0/25])`. -/
def stDup : IPSet := ⟨4, 32, sn4_24, UsedStore.pylist [n25a, n25a], [((167772160, 167772287), n25a)]⟩

/-- `IPv6Set(2001:db8::/48, [2001:db8::/64])`. -/
def stV6 : IPSet := ⟨6, 128, sn6_48, UsedStore.pylist [u6_64], [((addr6_db8, addr6_db8 + 2 ^ 64 - 1), u6_64)]⟩

/-! ### Claim theorems on concrete scenarios -/

/-- C1: the claim fails on the code.  After `used_networks = [10.0.0.0/25]`
on an `IPv4Set(10.0.0.0/24, [])`, the overlap index is stale (empty), so
`get_free_networks(25)` yields `10.0.0.0/25` even though that very network is
a member of the current used collection — its interval overlaps a used entry
(itself). -/
theorem C1_free_block_overlaps_current_used :
    IPv4Set_init sn4_24 [] = .ok stE ∧
    set_used_networks stE [n25a] = .ok stA ∧
    n25a ∈ (get_free_networks stA 25).1 ∧
    n25a ∈ stA.used_networks ∧
    overlapTest (n25a.first, n25a.last) (n25a.first, n25a.last) = true :=
  ⟨rfl, rfl, by decide, by decide, by decide⟩

/-- C2: the claim fails on the code.  The `used_networks` setter replaces the
stored collection but does not rebuild `_used_network_map`: after replacing
used = [10.0.0.0/25] with the empty set, `get_free_networks(25)` still
consults the stale index and excludes `10.0.0.0/25`, returning only
`10.0.0.128/25` instead of both candidates. -/
theorem C2_setter_leaves_stale_index :
    IPv4Set_init sn4_24 [n25a] = .ok stU ∧
    set_used_networks stU [] = .ok stU0 ∧
    stU0.used_networks = [] ∧
    stU0.used_network_map = stU.used_network_map ∧
    get_free_networks stU0 25 = ([n25b], none) ∧
    n25a ∉ (get_free_networks stU0 25).1 :=
  ⟨rfl, rfl, rfl, rfl, rfl, by decide⟩

/-- C3: the claim fails on the code.  On a freshly constructed set the
`_used_networks` attribute is a Python list, which has no `update` method, so
`add_used_networks` raises `AttributeError` (state unchanged) instead of
completing and unioning the input. -/
theorem C3_add_used_networks_always_raises :
    IPv4Set_init sn4_24 [] = .ok stE ∧
    add_used_networks stE [n26_64] = (stE, some PyError.attributeError) :=
  ⟨rfl, rfl⟩

/-- C5: the claim fails on the code.  `range(int(start[0]), int(start[-1]),
1)` excludes the last address as a start, so for supernet `10.0.0.0/31` with
no used networks `get_free_networks(32)` yields only `10.0.0.0/32`: the
supernet's last address `10.0.0.1` is covered by no yielded block, so the
result is not a full tiling. -/
theorem C5_tiling_misses_last_candidate :
    IPv4Set_init sn4_31 [] = .ok st31 ∧
    get_free_networks st31 32 = ([n32_0], none) ∧
    n32_1 ∉ (get_free_networks st31 32).1 ∧
    n32_1.first = sn4_31.last ∧
    (∀ n ∈ (get_free_networks st31 32).1, n.last < sn4_31.last) :=
  ⟨rfl, rfl, by decide, rfl, by decide⟩

/-- C7: the claim fails on the code.  For the single-address supernet
`10.0.0.0/32` (prefix length equal to the family maximum), `range(S, S, 1)`
is empty, so `get_free_networks(32)` with an empty used set enumerates no
candidate at all instead of returning the supernet itself. -/
theorem C7_supernet_prefix_query_empty :
    IPv4Set_init sn4_32 [] = .ok st32 ∧
    st32.used_networks = [] ∧
    get_free_networks st32 32 = ([], none) :=
  ⟨rfl, rfl, rfl⟩

/-- C8: the claim fails on the code.  After the setter has turned the store
into a set, `add_used_networks` mutates `_used_networks` in place and *then*
raises `AttributeError` on the nonexistent `_update_free_networks` method:
state is modified and the call still fails. -/
theorem C8_mutation_then_raise :
    set_used_networks stE [n25a] = .ok stA ∧
    add_used_networks stA [n26_64] = (stB, some PyError.attributeError) ∧
    n26_64 ∈ stB.used_networks ∧
    n26_64 ∉ stA.used_networks :=
  ⟨rfl, rfl, by decide, by decide⟩

/-- C10: the claim fails on the code.  `__init__` stores the used networks
via a list comprehension, not via `_init_used_networks`, so constructing with
the duplicated list `[10.0.0.0/25, 10.0.0.0/25]` stores both copies and the
`used_networks` property yields the same network twice. -/
theorem C10_construction_keeps_duplicates :
    IPv4Set_init sn4_24 [n25a, n25a] = .ok stDup ∧
    stDup.used_networks = [n25a, n25a] :=
  ⟨rfl, rfl⟩

/-- C4 counterexample: the claim (`InvalidPrefixError` whenever
`prefix_length < supernet.prefixlen`) is false.  On `IPv4Set(10.0.0.0/24,
[])` the call `get_free_networks(16)` raises nothing and yields the block
`10.0.0.0/16` — a network strictly wider than the supernet. -/
theorem C4_small_prefix_silently_yields :
    get_free_networks stE 16 = ([n16], none) ∧
    n16.prefixlen < stE.supernet.prefixlen ∧
    stE.supernet.last < n16.last :=
  ⟨rfl, by decide, by decide⟩

/-! ### Supporting lemmas about the candidate enumeration -/

theorem mem_pyRange {a b step x : Nat} :
    x ∈ pyRange a b step ↔ ∃ k, k < (b - a + step - 1) / step ∧ x = a + k * step := by
  simp only [pyRange, List.mem_map, List.mem_range]
  constructor
  · rintro ⟨k, hk, rfl⟩; exact ⟨k, hk, rfl⟩
  · rintro ⟨k, hk, rfl⟩; exact ⟨k, hk, rfl⟩

theorem ip_network_from_int_addr {a p : Nat} {n : Network}
    (h : ip_network_from_int a p = some n) : n.addr = a := by
  unfold ip_network_from_int at h
  split at h
  · cases h; rfl
  · split at h
    · cases h; rfl
    · cases h

theorem ip_network_from_int_isSome_32 {a p : Nat}
    (ha : a < 2 ^ 32) (hp : p ≤ 32) (hal : a % 2 ^ (32 - p) = 0) :
    (ip_network_from_int a p).isSome = true := by
  unfold ip_network_from_int
  rw [if_pos ⟨ha, hp, hal⟩]
  rfl

theorem ip_network_from_int_isSome_128 {a p : Nat}
    (ha : a < 2 ^ 128) (hp : p ≤ 128) (hal : a % 2 ^ (128 - p) = 0) :
    (ip_network_from_int a p).isSome = true := by
  unfold ip_network_from_int
  by_cases h4 : a < 2 ^ 32 ∧ p ≤ 32 ∧ a % 2 ^ (32 - p) = 0
  · rw [if_pos h4]; rfl
  · rw [if_neg h4, if_pos ⟨ha, hp, hal⟩]; rfl

theorem yieldNetworks_eq_of_forall {p : Nat} {l : List (Nat × Nat)}
    (h : ∀ c ∈ l, (ip_network_from_int c.1 p).isSome = true) :
    yieldNetworks p l = (l.filterMap (fun c => ip_network_from_int c.1 p), none) := by
  induction l with
  | nil => rfl
  | cons c rest ih =>
    have hc := h c (List.mem_cons_self c rest)
    obtain ⟨n, hn⟩ := Option.isSome_iff_exists.mp hc
    have ih' := ih (fun x hx => h x (List.mem_cons_of_mem c hx))
    simp [yieldNetworks, hn, List.filterMap_cons, ih']

theorem net_size_iterator_eq {sn : Network} {p : Nat} (hp : p ≤ sn.max_prefixlen) :
    net_size_iterator sn p =
      some ((pyRange sn.first sn.last (2 ^ (sn.max_prefixlen - p))).map
        (fun s => (s, s + 2 ^ (sn.max_prefixlen - p) - 1))) := by
  unfold net_size_iterator
  rw [if_pos hp]

theorem get_free_networks_some {st : IPSet} {p : Nat} {cands : List (Nat × Nat)}
    (h : net_size_iterator st.supernet p = some cands) :
    get_free_networks st p =
      yieldNetworks p
        (cands.filter (fun n => (overlap n (st.used_network_map.map Prod.fst)).isNone)) := by
  unfold get_free_networks
  rw [h]

theorem candidate_start_bounds {sn : Network} {p a : Nat}
    (hv : sn.Valid) (hs : sn.prefixlen ≤ p) (hp : p ≤ sn.max_prefixlen)
    (ha : a ∈ pyRange sn.first sn.last (2 ^ (sn.max_prefixlen - p))) :
    a < 2 ^ sn.max_prefixlen ∧ a % 2 ^ (sn.max_prefixlen - p) = 0 := by
  obtain ⟨k, hk, rfl⟩ := mem_pyRange.mp ha
  obtain ⟨_, hple, haddr, halign⟩ := hv
  have hdD : sn.max_prefixlen - p ≤ sn.max_prefixlen - sn.prefixlen := by omega
  have hdvd_dD : (2 ^ (sn.max_prefixlen - p) : Nat) ∣ 2 ^ (sn.max_prefixlen - sn.prefixlen) :=
    pow_dvd_pow 2 hdD
  have hdvdS : (2 ^ (sn.max_prefixlen - sn.prefixlen) : Nat) ∣ sn.addr :=
    Nat.dvd_of_mod_eq_zero halign
  have hdvdSd : (2 ^ (sn.max_prefixlen - p) : Nat) ∣ sn.addr := hdvd_dD.trans hdvdS
  have hpos_d : (0 : Nat) < 2 ^ (sn.max_prefixlen - p) := Nat.pow_pos (by decide)
  have hpos_D : (0 : Nat) < 2 ^ (sn.max_prefixlen - sn.prefixlen) := Nat.pow_pos (by decide)
  have hlast : sn.last - sn.first = 2 ^ (sn.max_prefixlen - sn.prefixlen) - 1 := by
    simp only [Network.last, Network.first]
    omega
  rw [hlast] at hk
  have hkk : (k + 1) * 2 ^ (sn.max_prefixlen - p) ≤
      2 ^ (sn.max_prefixlen - sn.prefixlen) - 1 + 2 ^ (sn.max_prefixlen - p) - 1 :=
    calc (k + 1) * 2 ^ (sn.max_prefixlen - p)
        ≤ ((2 ^ (sn.max_prefixlen - sn.prefixlen) - 1 + 2 ^ (sn.max_prefixlen - p) - 1) /
              2 ^ (sn.max_prefixlen - p)) * 2 ^ (sn.max_prefixlen - p) :=
          Nat.mul_le_mul_right _ hk
      _ ≤ _ := Nat.div_mul_le_self _ _
  have hstep : (k + 1) * 2 ^ (sn.max_prefixlen - p) =
      k * 2 ^ (sn.max_prefixlen - p) + 2 ^ (sn.max_prefixlen - p) := Nat.succ_mul k _
  have hklt : k * 2 ^ (sn.max_prefixlen - p) < 2 ^ (sn.max_prefixlen - sn.prefixlen) := by
    omega
  obtain ⟨t, ht⟩ := hdvdS
  obtain ⟨M, hM⟩ := pow_dvd_pow 2 (Nat.sub_le sn.max_prefixlen sn.prefixlen)
  have htM : t < M := by
    have h' := haddr
    rw [ht, hM] at h'
    exact Nat.lt_of_mul_lt_mul_left h'
  have hsum : sn.addr + 2 ^ (sn.max_prefixlen - sn.prefixlen) ≤ 2 ^ sn.max_prefixlen := by
    rw [ht, hM, ← Nat.mul_succ]
    exact Nat.mul_le_mul_left _ htM
  simp only [Network.first]
  constructor
  · omega
  · obtain ⟨u, hu⟩ := hdvdSd
    rw [hu]
    have hfold : 2 ^ (sn.max_prefixlen - p) * u + k * 2 ^ (sn.max_prefixlen - p) =
        (u + k) * 2 ^ (sn.max_prefixlen - p) := by ring
    rw [hfold, Nat.mul_mod_left]

theorem get_free_networks_eq {st : IPSet} {p : Nat}
    (hv : st.supernet.Valid) (hs : st.supernet.prefixlen ≤ p)
    (hp : p ≤ st.supernet.max_prefixlen) :
    get_free_networks st p =
      ((((pyRange st.supernet.first st.supernet.last
            (2 ^ (st.supernet.max_prefixlen - p))).map
          (fun s => (s, s + 2 ^ (st.supernet.max_prefixlen - p) - 1))).filter
          (fun n => (overlap n (st.used_network_map.map Prod.fst)).isNone)).filterMap
        (fun c => ip_network_from_int c.1 p), none) := by
  rw [get_free_networks_some (net_size_iterator_eq hp)]
  apply yieldNetworks_eq_of_forall
  intro c hc
  have hc' := List.mem_of_mem_filter hc
  obtain ⟨s, hsmem, hseq⟩ := List.mem_map.mp hc'
  obtain ⟨hlt, hmod⟩ := candidate_start_bounds hv hs hp hsmem
  have hc1 : c.1 = s := by rw [← hseq]
  rw [hc1]
  rcases hv.1 with h4 | h6
  · have hm : st.supernet.max_prefixlen = 32 := by
      simp [Network.max_prefixlen, h4]
    rw [hm] at hlt hmod hp
    exact ip_network_from_int_isSome_32 hlt hp hmod
  · have hm : st.supernet.max_prefixlen = 128 := by
      simp [Network.max_prefixlen, h6]
    rw [hm] at hlt hmod hp
    exact ip_network_from_int_isSome_128 hlt hp hmod

/-- C9: confirmed.  For well-formed intervals the source's four-disjunct test
agrees pointwise with the spec's formula `not (c1 < u0 or c0 > u1)`, any
interval returned by `overlap` is a member of `b` overlapping `a` in the
spec's sense, and `overlap` returns a match exactly when some interval of `b`
overlaps `a` in the spec's sense. -/
theorem C9_overlap_matches_spec (a x y : Nat × Nat) (b : List (Nat × Nat))
    (ha : a.1 ≤ a.2) (hb : ∀ z ∈ b, z.1 ≤ z.2) :
    (x.1 ≤ x.2 → (overlapTest a x = true ↔ spec_interval_overlap a x)) ∧
    (overlap a b = some y → y ∈ b ∧ spec_interval_overlap a y) ∧
    ((overlap a b).isSome = true ↔ ∃ z ∈ b, spec_interval_overlap a z) := by
  have hpt : ∀ z : Nat × Nat, z.1 ≤ z.2 →
      (overlapTest a z = true ↔ spec_interval_overlap a z) := by
    intro z hz
    simp only [overlapTest, spec_interval_overlap, Bool.or_eq_true, Bool.and_eq_true,
      decide_eq_true_eq]
    omega
  have hfind : ∀ z, overlap a b = some z → z ∈ b ∧ spec_interval_overlap a z := by
    intro z hz
    have hmem : z ∈ b := List.mem_of_find?_eq_some hz
    have htest : overlapTest a z = true := List.find?_some hz
    exact ⟨hmem, (hpt z (hb z hmem)).mp htest⟩
  refine ⟨hpt x, hfind y, ?_, ?_⟩
  · intro h
    obtain ⟨z, hz⟩ := Option.isSome_iff_exists.mp h
    obtain ⟨hmem, hspec⟩ := hfind z hz
    exact ⟨z, hmem, hspec⟩
  · rintro ⟨z, hmem, hspec⟩
    rw [Option.isSome_iff_ne_none]
    intro hnone
    have := List.find?_eq_none.mp hnone z hmem
    exact this ((hpt z (hb z hmem)).mpr hspec)

/-- Witness for C9 at a concrete input: candidate interval [0, 3], used
interval [2, 5]. -/
theorem C9_overlap_matches_spec_witness :
    ((2, 5).1 ≤ (2, 5).2 →
      (overlapTest (0, 3) (2, 5) = true ↔ spec_interval_overlap (0, 3) (2, 5))) ∧
    (overlap (0, 3) [(2, 5)] = some (2, 5) →
      (2, 5) ∈ [(2, 5)] ∧ spec_interval_overlap (0, 3) (2, 5)) ∧
    ((overlap (0, 3) [(2, 5)]).isSome = true ↔
      ∃ z ∈ [(2, 5)], spec_interval_overlap (0, 3) z) :=
  C9_overlap_matches_spec (0, 3) (2, 5) (2, 5) [(2, 5)] (by decide) (by decide)

/-- C4 (amended): `get_free_networks` performs no prefix validation and the
code defines no `InvalidPrefixError`.  For `prefixlen` above the family
maximum the float step makes `range` raise `TypeError`; for `prefixlen`
between the supernet's prefix length and the family maximum no exception is
raised.  This theorem covers only those two regimes; below the supernet's
prefix length the counterexample theorem exhibits one call that raises
nothing and silently yields a block wider than the supernet (on other
inputs in that regime the walk can instead end with `ValueError` at a
misaligned yield, or enumerate no candidate at all). -/
theorem C4_no_prefix_validation (st : IPSet) (p : Nat) (hv : st.supernet.Valid) :
    (st.supernet.max_prefixlen < p →
      get_free_networks st p = ([], some PyError.typeError)) ∧
    (st.supernet.prefixlen ≤ p → p ≤ st.supernet.max_prefixlen →
      (get_free_networks st p).2 = none) := by
  constructor
  · intro h
    unfold get_free_networks net_size_iterator
    rw [if_neg (by omega)]
  · intro hs hp
    rw [get_free_networks_eq hv hs hp]

/-- Witness for C4 (amended) on `IPv4Set(10.0.0.0/24, [])`: `prefixlen = 33`
raises `TypeError`, `prefixlen = 25` raises nothing. -/
theorem C4_no_prefix_validation_witness :
    get_free_networks stE 33 = ([], some PyError.typeError) ∧
    (get_free_networks stE 25).2 = none :=
  ⟨(C4_no_prefix_validation stE 33 (by decide)).1 (by decide),
   (C4_no_prefix_validation stE 25 (by decide)).2 (by decide) (by decide)⟩

/-- The `/48` IPv6 query in closed form: `get_free_networks(64)` on
`IPv6Set(2001:db8::/48, [2001:db8::/64])` is the filtered candidate walk
with step `2 ^ 64`. -/
theorem stV6_free_eq :
    get_free_networks stV6 64 =
      ((((pyRange addr6_db8 (addr6_db8 + 2 ^ 80 - 1) (2 ^ 64)).map
          (fun s => (s, s + 2 ^ 64 - 1))).filter
          (fun n => (overlap n [(addr6_db8, addr6_db8 + 2 ^ 64 - 1)]).isNone)).filterMap
        (fun c => ip_network_from_int c.1 64), none) :=
  get_free_networks_eq (by decide) (by decide) (by decide)

theorem stV6_free_fst :
    (get_free_networks stV6 64).1 =
      (((pyRange addr6_db8 (addr6_db8 + 2 ^ 80 - 1) (2 ^ 64)).map
          (fun s => (s, s + 2 ^ 64 - 1))).filter
          (fun n => (overlap n [(addr6_db8, addr6_db8 + 2 ^ 64 - 1)]).isNone)).filterMap
        (fun c => ip_network_from_int c.1 64) := by
  rw [stV6_free_eq]

theorem stV6_yields_second_candidate : y6_64 ∈ (get_free_networks stV6 64).1 := by
  rw [stV6_free_fst]
  refine List.mem_filterMap.mpr
    ⟨(addr6_db8 + 2 ^ 64, addr6_db8 + 2 ^ 64 + 2 ^ 64 - 1), ?_, ?_⟩
  · refine List.mem_filter.mpr ⟨?_, ?_⟩
    · refine List.mem_map.mpr ⟨addr6_db8 + 2 ^ 64, ?_, rfl⟩
      exact mem_pyRange.mpr ⟨1, by decide, by ring⟩
    · decide
  · decide

theorem stV6_does_not_yield_used : u6_64 ∉ (get_free_networks stV6 64).1 := by
  rw [stV6_free_fst]
  intro hmem
  obtain ⟨c, hc, hfc⟩ := List.mem_filterMap.mp hmem
  have haddr : u6_64.addr = c.1 := ip_network_from_int_addr hfc
  obtain ⟨hcl, hfilt⟩ := List.mem_filter.mp hc
  obtain ⟨s, hsmem, hseq⟩ := List.mem_map.mp hcl
  obtain ⟨k, _, rfl⟩ := mem_pyRange.mp hsmem
  have hc1 : c.1 = addr6_db8 + k * 2 ^ 64 := by rw [← hseq]
  have hu : u6_64.addr = addr6_db8 := rfl
  have hpos : (0 : Nat) < 2 ^ 64 := Nat.pow_pos (by decide)
  have hk0 : k * 2 ^ 64 = 0 := by omega
  rcases Nat.mul_eq_zero.mp hk0 with hk | habs
  · subst hk
    rw [← hseq] at hfilt
    exact absurd hfilt (by decide)
  · omega

/-- C6: confirmed.  Both worked examples of the spec hold on the code.  For
`IPv4Set(10.0.0.0/24, [10.0.0.0/26])`, `get_free_networks(26)` yields exactly
`10.0.0.64/26, 10.0.0.128/26, 10.0.0.192/26` in that (ascending) order and
raises nothing; for `IPv6Set(2001:db8::/48, [2001:db8::/64])`,
`get_free_networks(64)` does not yield `2001:db8::/64` but yields
`2001:db8:0:1::/64`. -/
theorem C6_spec_examples :
    (IPv4Set_init sn4_24 [n26a] = .ok stV4 ∧
      get_free_networks stV4 26 = ([n26_64, n26_128, n26_192], none) ∧
      n26_64.addr < n26_128.addr ∧ n26_128.addr < n26_192.addr) ∧
    (IPv6Set_init sn6_48 [u6_64] = .ok stV6 ∧
      y6_64 ∈ (get_free_networks stV6 64).1 ∧
      u6_64 ∉ (get_free_networks stV6 64).1) :=
  ⟨⟨rfl, rfl, by decide, by decide⟩,
   ⟨rfl, stV6_yields_second_candidate, stV6_does_not_yield_used⟩⟩
